import Mathlib

/-!
Shallow embedding of `src/kernel-module-example/vsock_tap_bridge.c`, the
vsock–TAP bridge kernel module, together with theorems settling the
specification claims about its lifecycle, workers, and transmit upcall.

The module's side effects are modelled explicitly: kernel calls issued by
`vsock_tap_bridge_init` / `vsock_tap_bridge_exit` become `Event` values in a
trace, machine integers returned by socket calls become `Int`, per-iteration
loop bodies of the two worker threads become pure step functions on a
`BridgeSt` record, and the goto-chain unwind labels of the init function
become explicit functions threaded over a `Resources` record.
-/

namespace VsockTapBridge

/-- Errno constant EAGAIN (would-block), as used in `if (len == -EAGAIN)`. -/
def EAGAIN : Int := 11

/-- Errno constant ENOMEM, returned on allocation failure. -/
def ENOMEM : Int := 12

/-- A frame (sk_buff payload): an opaque byte buffer. -/
abbrev Frame := List Nat

/-- The `struct net_device_stats` counters touched (or notably not touched)
by the bridge: the code updates rx/tx packet and byte counts and never
touches the dropped counters. -/
structure Stats where
  rx_packets : Nat := 0
  rx_bytes : Nat := 0
  tx_packets : Nat := 0
  tx_bytes : Nat := 0
  rx_dropped : Nat := 0
  tx_dropped : Nat := 0
deriving DecidableEq, Repr

/-- The shared state of `struct vsock_tap_bridge` visible to the workers and
the transmit upcall: the `running` flag, the outbound `tx_queue`, and the
TAP device statistics. -/
structure BridgeSt where
  running : Bool
  tx_queue : List Frame
  stats : Stats
deriving DecidableEq, Repr

/-- Return values of an `ndo_start_xmit` handler. -/
inductive NetdevTx where
  | TX_OK
  | TX_BUSY
deriving DecidableEq, Repr

/-- Result of one call to `tap_xmit`: the netdev return code, the updated
global bridge pointer/state, whether the skb was freed (`dev_kfree_skb`),
and whether `wake_up_process` was called on the TX thread. -/
structure XmitOut where
  ret : NetdevTx
  st : Option BridgeSt
  freedSkb : Bool
  wokeTx : Bool
deriving DecidableEq, Repr

/-- Embedding of `tap_xmit` (vsock_tap_bridge.c lines 57-71): if the global
`bridge` is NULL or not running, free the skb and return NETDEV_TX_OK;
otherwise queue the skb at the tail of `tx_queue`, wake the TX thread, and
return NETDEV_TX_OK. -/
def tap_xmit (g : Option BridgeSt) (skb : Frame) : XmitOut :=
  match g with
  | none => ⟨.TX_OK, none, true, false⟩
  | some br =>
    if br.running = false then
      ⟨.TX_OK, some br, true, false⟩
    else
      ⟨.TX_OK, some { br with tx_queue := br.tx_queue ++ [skb] }, false, true⟩

/-- What a worker-loop body decides to do next: `cont` models `continue`
(or falling to the next iteration), `brk` models `break`. -/
inductive LoopAct where
  | cont
  | brk
deriving DecidableEq, Repr

/-- The loop guard `!kthread_should_stop() && br->running` shared by both
worker threads. -/
def loopGuard (shouldStop : Bool) (br : BridgeSt) : Bool :=
  !shouldStop && br.running

/-- Result of one RX-loop iteration: the loop action, the frame injected
into the stack via `netif_rx` (if any), whether `pr_err` was called, and the
resulting bridge state. -/
structure RxOut where
  act : LoopAct
  injected : Option Frame
  loggedErr : Bool
  st : BridgeSt
deriving DecidableEq, Repr

/-- Embedding of the body of the RX loop in `vsock_rx_thread`
(vsock_tap_bridge.c lines 110-147). `len` is the `kernel_recvmsg` result,
`buffer` the bytes it delivered, `allocOk` whether `dev_alloc_skb`
succeeds. On `len <= 0`: continue only for `-EAGAIN`, otherwise log and
break. On `len > 0`: if skb allocation fails, log and continue; otherwise
copy `len` bytes, inject via `netif_rx`, and bump rx statistics. -/
def vsock_rx_iter (br : BridgeSt) (len : Int) (buffer : Frame) (allocOk : Bool) : RxOut :=
  if len ≤ 0 then
    if len = -EAGAIN then
      ⟨.cont, none, false, br⟩
    else
      ⟨.brk, none, true, br⟩
  else if allocOk = false then
    ⟨.cont, none, true, br⟩
  else
    ⟨.cont, some (buffer.take len.toNat), false,
      { br with stats := { br.stats with
          rx_packets := br.stats.rx_packets + 1
          rx_bytes := br.stats.rx_bytes + len.toNat } }⟩

/-- One external stimulus for an RX iteration: the recvmsg result, the bytes
received, and whether the skb allocation would succeed. -/
structure RxInput where
  len : Int
  buffer : Frame
  allocOk : Bool
deriving Repr

/-- Result of running the RX loop over a list of stimuli: the final bridge
state, the frames injected upward in order, and whether the loop ended by
`break` (fatal recvmsg error) rather than by its guard. -/
structure RxRun where
  st : BridgeSt
  injected : List Frame
  broke : Bool
deriving DecidableEq, Repr

/-- Embedding of the RX loop of `vsock_rx_thread`: while the guard
`!kthread_should_stop() && br->running` holds, consume the next stimulus
with `vsock_rx_iter`; stop when the guard fails, the stimuli run out, or an
iteration breaks. -/
def vsock_rx_run (shouldStop : Bool) (br : BridgeSt) : List RxInput → RxRun
  | [] => ⟨br, [], false⟩
  | i :: rest =>
    if loopGuard shouldStop br = false then
      ⟨br, [], false⟩
    else
      let o := vsock_rx_iter br i.len i.buffer i.allocOk
      match o.act with
      | .brk => ⟨o.st, [], true⟩
      | .cont =>
        let r := vsock_rx_run shouldStop o.st rest
        ⟨r.st, o.injected.toList ++ r.injected, r.broke⟩

/-- Result of one TX-loop iteration: the loop action, whether the idle
10 ms sleep was taken, whether `pr_err` was called, whether the skb was
freed, the frame passed to `kernel_sendmsg` (if one was dequeued), and the
resulting bridge state. -/
structure TxOut where
  act : LoopAct
  slept : Bool
  loggedErr : Bool
  freedSkb : Bool
  attemptedSend : Option Frame
  st : BridgeSt
deriving DecidableEq, Repr

/-- Embedding of the body of the TX loop in `vsock_tx_thread`
(vsock_tap_bridge.c lines 166-194). If the queue is empty, sleep ~10 ms and
continue. Otherwise dequeue one skb and issue a single `kernel_sendmsg`
whose result is `sendRet`: on a negative result log the error, on a
non-negative result add it to the tx statistics; in both cases free the skb
and fall through to the next iteration (the loop body contains no break). -/
def vsock_tx_iter (br : BridgeSt) (sendRet : Int) : TxOut :=
  match br.tx_queue with
  | [] => ⟨.cont, true, false, false, none, br⟩
  | skb :: rest =>
    if sendRet < 0 then
      ⟨.cont, false, true, true, some skb, { br with tx_queue := rest }⟩
    else
      ⟨.cont, false, false, true, some skb,
        { br with
          tx_queue := rest
          stats := { br.stats with
            tx_packets := br.stats.tx_packets + 1
            tx_bytes := br.stats.tx_bytes + sendRet.toNat } }⟩

/-- Kernel calls made by module init and exit, in program order. -/
inductive Event where
  | kzallocBridge
  | initRxQueue
  | initTxQueue
  | setRunning (b : Bool)
  | allocNetdevEv
  | registerNetdevEv
  | sockCreate
  | connectVsock
  | startRxThread
  | startTxThread
  | devOpenEv
  | kthreadStopTx
  | kthreadStopRx
  | sockRelease
  | devCloseEv
  | unregisterNetdevEv
  | freeNetdevEv
  | purgeRxQueue
  | purgeTxQueue
  | kfreeBridge
deriving DecidableEq, Repr

/-- Which resources the module currently holds: the kzalloc'd bridge
struct, the allocated netdev, its registration, the vsock socket, and the
two kthreads. -/
structure Resources where
  bridgeMem : Bool := false
  netdevMem : Bool := false
  netdevRegistered : Bool := false
  sockMem : Bool := false
  rxThreadLive : Bool := false
  txThreadLive : Bool := false
deriving DecidableEq, Repr

/-- No resource held. -/
def noResources : Resources := {}

/-- Outcomes of the fallible kernel calls issued by
`vsock_tap_bridge_init`: allocation successes as booleans, and for calls
returning an `int`, the returned value itself (0 meaning success, a
negative errno meaning failure, exactly as the C checks `if (ret)`). -/
structure InitEnv where
  kzallocOk : Bool
  allocNetdevOk : Bool
  registerRet : Int
  sockCreateRet : Int
  connectRet : Int
  rxThreadErr : Int
  txThreadErr : Int
deriving Repr

/-- Result of module init: the returned `int`, the trace of kernel calls,
the resources still held when init returns, and whether the global `bridge`
pointer is non-NULL afterwards. -/
structure InitResult where
  ret : Int
  trace : List Event
  res : Resources
  globalBridge : Bool
deriving DecidableEq, Repr

/-- Unwind label `err_free_bridge`: `kfree(bridge); bridge = NULL;`. -/
def err_free_bridge (r : Resources) (t : List Event) : Resources × List Event :=
  ({ r with bridgeMem := false }, t ++ [.kfreeBridge])

/-- Unwind label `err_free_netdev`: `free_netdev` then fall through to
`err_free_bridge`. -/
def err_free_netdev (r : Resources) (t : List Event) : Resources × List Event :=
  err_free_bridge { r with netdevMem := false } (t ++ [.freeNetdevEv])

/-- Unwind label `err_unregister_netdev`: `unregister_netdev` then fall
through to `err_free_netdev`. -/
def err_unregister_netdev (r : Resources) (t : List Event) : Resources × List Event :=
  err_free_netdev { r with netdevRegistered := false } (t ++ [.unregisterNetdevEv])

/-- Unwind label `err_close_socket`: `sock_release` then fall through to
`err_unregister_netdev`. -/
def err_close_socket (r : Resources) (t : List Event) : Resources × List Event :=
  err_unregister_netdev { r with sockMem := false } (t ++ [.sockRelease])

/-- Unwind label `err_stop_rx`: `kthread_stop(rx_thread)` then fall through
to `err_close_socket`. -/
def err_stop_rx (r : Resources) (t : List Event) : Resources × List Event :=
  err_close_socket { r with rxThreadLive := false } (t ++ [.kthreadStopRx])

/-- Embedding of `vsock_tap_bridge_init` (vsock_tap_bridge.c lines
203-292): kzalloc the bridge, init both queues, set `running = true`,
allocate and register the TAP netdev, create and connect the vsock socket,
start the RX and TX threads, open the device. Each failing step jumps to
its unwind label; the trace records the calls actually made. -/
def vsock_tap_bridge_init (env : InitEnv) : InitResult :=
  if env.kzallocOk = false then
    ⟨-ENOMEM, [], noResources, false⟩
  else
    let r1 : Resources := { bridgeMem := true }
    let t1 : List Event := [.kzallocBridge, .initRxQueue, .initTxQueue, .setRunning true]
    if env.allocNetdevOk = false then
      let p := err_free_bridge r1 t1
      ⟨-ENOMEM, p.2, p.1, false⟩
    else
      let r2 : Resources := { r1 with netdevMem := true }
      let t2 := t1 ++ [.allocNetdevEv]
      if env.registerRet ≠ 0 then
        let p := err_free_netdev r2 t2
        ⟨env.registerRet, p.2, p.1, false⟩
      else
        let r3 : Resources := { r2 with netdevRegistered := true }
        let t3 := t2 ++ [.registerNetdevEv]
        if env.sockCreateRet ≠ 0 then
          let p := err_unregister_netdev r3 t3
          ⟨env.sockCreateRet, p.2, p.1, false⟩
        else
          let r4 : Resources := { r3 with sockMem := true }
          let t4 := t3 ++ [.sockCreate]
          if env.connectRet ≠ 0 then
            let p := err_close_socket r4 t4
            ⟨env.connectRet, p.2, p.1, false⟩
          else
            let t5 := t4 ++ [.connectVsock]
            if env.rxThreadErr ≠ 0 then
              let p := err_close_socket r4 t5
              ⟨env.rxThreadErr, p.2, p.1, false⟩
            else
              let r5 : Resources := { r4 with rxThreadLive := true }
              let t6 := t5 ++ [.startRxThread]
              if env.txThreadErr ≠ 0 then
                let p := err_stop_rx r5 t6
                ⟨env.txThreadErr, p.2, p.1, false⟩
              else
                let r6 : Resources := { r5 with txThreadLive := true }
                ⟨0, t6 ++ [.startTxThread, .devOpenEv], r6, true⟩

/-- The fields of `struct vsock_tap_bridge` that `vsock_tap_bridge_exit`
inspects: the running flag and whether each handle is non-NULL. -/
structure ExitBridge where
  running : Bool
  txThread : Bool
  rxThread : Bool
  sock : Bool
  tapDev : Bool
deriving DecidableEq, Repr

/-- Embedding of `vsock_tap_bridge_exit` (vsock_tap_bridge.c lines
297-335): if the global `bridge` is NULL return immediately with no calls;
otherwise set `running = false`, stop the TX then the RX thread (each if
non-NULL), release the socket (if non-NULL), close/unregister/free the TAP
device (if non-NULL), purge both queues, free the bridge and NULL the
global pointer. Returns the new global pointer and the trace of calls. -/
def vsock_tap_bridge_exit (g : Option ExitBridge) : Option ExitBridge × List Event :=
  match g with
  | none => (none, [])
  | some br =>
    (none,
      [Event.setRunning false]
        ++ (if br.txThread then [Event.kthreadStopTx] else [])
        ++ (if br.rxThread then [Event.kthreadStopRx] else [])
        ++ (if br.sock then [Event.sockRelease] else [])
        ++ (if br.tapDev then [Event.devCloseEv, Event.unregisterNetdevEv, Event.freeNetdevEv] else [])
        ++ [Event.purgeRxQueue, Event.purgeTxQueue, Event.kfreeBridge])

/-- `precededBy a b l` holds when every occurrence of `a` in `l` is
strictly preceded by an occurrence of `b`. -/
def precededBy (a b : Event) : List Event → Bool
  | [] => true
  | x :: xs =>
    if x = a then false
    else if x = b then true
    else precededBy a b xs

/-- Init environment in which every fallible call succeeds. -/
def okEnv : InitEnv := ⟨true, true, 0, 0, 0, 0, 0⟩

/-- Init environment in which the vsock connect fails with -ECONNREFUSED. -/
def connectFailEnv : InitEnv := ⟨true, true, 0, 0, -111, 0, 0⟩

/-- A bridge in steady state: running, empty queue, zeroed statistics. -/
def steadyBridge : BridgeSt := ⟨true, [], {}⟩

/-- A stopped bridge: `running = false`, empty queue, zeroed statistics. -/
def stoppedBridge : BridgeSt := ⟨false, [], {}⟩

/-- A running bridge holding one queued three-byte frame. -/
def queuedBridge : BridgeSt := ⟨true, [[0, 1, 2]], {}⟩

/-- An exit-time bridge whose handles are all non-NULL. -/
def fullBridge : ExitBridge := ⟨true, true, true, true, true⟩

/-- An RX-loop iteration never writes the `running` flag. -/
theorem rx_iter_running_eq (br : BridgeSt) (len : Int) (buffer : Frame)
    (allocOk : Bool) : (vsock_rx_iter br len buffer allocOk).st.running = br.running := by
  unfold vsock_rx_iter
  repeat' split
  all_goals rfl

/-- A TX-loop iteration never writes the `running` flag. -/
theorem tx_iter_running_eq (br : BridgeSt) (sendRet : Int) :
    (vsock_tx_iter br sendRet).st.running = br.running := by
  unfold vsock_tx_iter
  repeat' split
  all_goals rfl

/-- A whole RX run never writes the `running` flag. -/
theorem rx_run_running_eq (shouldStop : Bool) (br : BridgeSt)
    (inputs : List RxInput) :
    (vsock_rx_run shouldStop br inputs).st.running = br.running := by
  induction inputs generalizing br with
  | nil => rfl
  | cons i rest ih =>
    simp only [vsock_rx_run]
    split
    · rfl
    · split
      · exact rx_iter_running_eq br i.len i.buffer i.allocOk
      · rw [ih]
        exact rx_iter_running_eq br i.len i.buffer i.allocOk

/-- C1: counterexample. In a fully successful init the trace contains
`setRunning true`, yet no transport connect precedes it: the code sets
`running = true` (line 219) before `kernel_connect` (line 249), refuting
the claim that the flag is set to true only after connect succeeds. -/
theorem running_true_before_connect :
    (vsock_tap_bridge_init okEnv).trace.contains (Event.setRunning true) = true ∧
    precededBy (Event.setRunning true) Event.connectVsock
      (vsock_tap_bridge_init okEnv).trace = false := by decide

/-- C1 (amended): the `running` flag is written to true exactly once during
init (whenever the bridge struct allocation succeeds), and this write
happens after both queue initializations — every `setRunning true` in the
init trace is preceded by `initRxQueue` and by `initTxQueue` — and before
the interface is created and before the transport connect is attempted —
every `allocNetdevEv` and every `connectVsock` in the init trace is
preceded by `setRunning true`; it is written to false exactly once, as the
very first step of exit before any teardown call; and neither worker's
loop body ever writes it. -/
theorem running_flag_discipline :
    (∀ env : InitEnv, env.kzallocOk = true →
      List.count (Event.setRunning true) (vsock_tap_bridge_init env).trace = 1 ∧
      precededBy (Event.setRunning true) Event.initRxQueue
        (vsock_tap_bridge_init env).trace = true ∧
      precededBy (Event.setRunning true) Event.initTxQueue
        (vsock_tap_bridge_init env).trace = true ∧
      precededBy Event.allocNetdevEv (Event.setRunning true)
        (vsock_tap_bridge_init env).trace = true ∧
      precededBy Event.connectVsock (Event.setRunning true)
        (vsock_tap_bridge_init env).trace = true) ∧
    (∀ br : ExitBridge,
      (vsock_tap_bridge_exit (some br)).2.head? = some (Event.setRunning false) ∧
      List.count (Event.setRunning false) (vsock_tap_bridge_exit (some br)).2 = 1) ∧
    (∀ (br : BridgeSt) (len : Int) (buffer : Frame) (allocOk : Bool),
      (vsock_rx_iter br len buffer allocOk).st.running = br.running) ∧
    (∀ (br : BridgeSt) (sendRet : Int),
      (vsock_tx_iter br sendRet).st.running = br.running) := by
  refine ⟨?_, ?_, rx_iter_running_eq, tx_iter_running_eq⟩
  · intro env hk
    obtain ⟨k, a, r, s, c, rx, tx⟩ := env
    simp only at hk
    subst hk
    simp only [vsock_tap_bridge_init]
    repeat' split
    all_goals dsimp only [err_free_bridge, err_free_netdev, err_unregister_netdev,
      err_close_socket, err_stop_rx]
    all_goals first
      | decide
      | simp_all
  · intro br
    obtain ⟨r, t, rx, sk, tp⟩ := br
    cases r <;> cases t <;> cases rx <;> cases sk <;> cases tp <;> decide

/-- C1 witness: the amended statement applied to the all-success init
environment. -/
theorem running_flag_discipline_witness :
    List.count (Event.setRunning true) (vsock_tap_bridge_init okEnv).trace = 1 :=
  (running_flag_discipline.1 okEnv rfl).1

/-- C2: counterexample. A recvmsg result of 0 on a running bridge makes
the RX iteration log an error and break out of the loop, refuting the
claim that a zero-byte read is treated as transient and the loop
continues. -/
theorem zero_read_breaks_loop :
    (vsock_rx_iter steadyBridge 0 [] true).act = LoopAct.brk ∧
    (vsock_rx_iter steadyBridge 0 [] true).loggedErr = true := by decide

/-- C2 (amended): in the RX loop, of the non-positive recvmsg results only
the would-block code -EAGAIN is treated as transient (the iteration
continues with the state unchanged and nothing logged); a zero-length read
or any other non-positive result, the interrupted codes included, is
treated as fatal: the iteration logs an error and breaks. -/
theorem rx_transient_only_eagain (br : BridgeSt) (len : Int) (buffer : Frame)
    (allocOk : Bool) (hle : len ≤ 0) :
    (len = -EAGAIN →
      (vsock_rx_iter br len buffer allocOk).act = LoopAct.cont ∧
      (vsock_rx_iter br len buffer allocOk).st = br ∧
      (vsock_rx_iter br len buffer allocOk).loggedErr = false) ∧
    (len ≠ -EAGAIN →
      (vsock_rx_iter br len buffer allocOk).act = LoopAct.brk ∧
      (vsock_rx_iter br len buffer allocOk).st = br ∧
      (vsock_rx_iter br len buffer allocOk).loggedErr = true) := by
  unfold vsock_rx_iter
  constructor
  · intro he
    rw [if_pos hle, if_pos he]
    exact ⟨rfl, rfl, rfl⟩
  · intro he
    rw [if_pos hle, if_neg he]
    exact ⟨rfl, rfl, rfl⟩

/-- C2 witness: the amended statement applied at a would-block read on the
steady bridge. -/
theorem rx_transient_only_eagain_witness :
    (vsock_rx_iter steadyBridge (-11) [] true).act = LoopAct.cont :=
  ((rx_transient_only_eagain steadyBridge (-11) [] true (by decide)).1 (by decide)).1

/-- C3: counterexample. Running the RX loop against a single fatal read
result (-104, connection reset) makes the worker break out of its loop,
yet the resulting bridge state still has `running = true` and the TX
worker's loop guard still holds: no transport-lost signal reaches the
lifecycle and no shutdown of the bridge or of the other worker is
initiated. -/
theorem fatal_read_no_shutdown_signal :
    (vsock_rx_run false steadyBridge [⟨-104, [], true⟩]).broke = true ∧
    (vsock_rx_run false steadyBridge [⟨-104, [], true⟩]).st.running = true ∧
    loopGuard false (vsock_rx_run false steadyBridge [⟨-104, [], true⟩]).st = true := by
  decide

/-- C3 (amended): on a fatal read error (negative result other than
-EAGAIN) the RX iteration logs an error and breaks, leaving the shared
bridge state untouched; and no RX run ever changes the `running` flag — so
nothing is propagated to the lifecycle and the TX worker's loop guard is
unaffected, the other worker keeps running until module exit. -/
theorem fatal_read_stops_only_rx :
    (∀ (br : BridgeSt) (len : Int) (buffer : Frame) (allocOk : Bool),
      len < 0 → len ≠ -EAGAIN →
      (vsock_rx_iter br len buffer allocOk).act = LoopAct.brk ∧
      (vsock_rx_iter br len buffer allocOk).loggedErr = true ∧
      (vsock_rx_iter br len buffer allocOk).st = br) ∧
    (∀ (shouldStop : Bool) (br : BridgeSt) (inputs : List RxInput),
      (vsock_rx_run shouldStop br inputs).st.running = br.running) := by
  refine ⟨?_, rx_run_running_eq⟩
  intro br len buffer allocOk hneg hne
  unfold vsock_rx_iter
  rw [if_pos (le_of_lt hneg), if_neg hne]
  exact ⟨rfl, rfl, rfl⟩

/-- C3 witness: the amended statement applied at a connection-reset read
on the steady bridge. -/
theorem fatal_read_stops_only_rx_witness :
    (vsock_rx_iter steadyBridge (-104) [] true).act = LoopAct.brk :=
  (fatal_read_stops_only_rx.1 steadyBridge (-104) [] true (by decide) (by decide)).1

/-- C4: on a bridge with every handle live, exit performs exactly: set
`running = false`, stop the TX thread, stop the RX thread, release the
socket, close/unregister/free the TAP device, purge both queues, free the
bridge. In this trace the wait for the RX thread (`kthread_stop`) is NOT
preceded by the socket release: the transport is closed only after
waiting for the worker, so a worker blocked indefinitely in a transport
read is never unblocked before the wait. -/
theorem exit_waits_before_closing_transport :
    (vsock_tap_bridge_exit (some fullBridge)).2 =
      [Event.setRunning false, Event.kthreadStopTx, Event.kthreadStopRx,
       Event.sockRelease, Event.devCloseEv, Event.unregisterNetdevEv,
       Event.freeNetdevEv, Event.purgeRxQueue, Event.purgeTxQueue,
       Event.kfreeBridge] ∧
    precededBy Event.kthreadStopRx Event.sockRelease
      (vsock_tap_bridge_exit (some fullBridge)).2 = false := by decide

/-- C5: counterexample. With one frame queued, a fatal send result (-104,
connection reset) leaves the TX iteration continuing its loop — it merely
logs the error and frees the frame — refuting the claim that a fatal
write error makes the worker stop looping and notify the lifecycle. -/
theorem fatal_write_does_not_stop_tx :
    (vsock_tx_iter queuedBridge (-104)).act = LoopAct.cont ∧
    (vsock_tx_iter queuedBridge (-104)).loggedErr = true ∧
    (vsock_tx_iter queuedBridge (-104)).st.running = true := by decide

/-- C5 (amended): for every frame the TX worker dequeues it issues exactly
one transport write and releases the frame; on a negative write result it
logs the error, leaves the statistics unchanged, and continues looping —
neither stopping nor notifying the lifecycle; on a non-negative result it
adds the reported byte count to the TX statistics and continues. -/
theorem tx_single_write_per_frame (br : BridgeSt) (sendRet : Int)
    (skb : Frame) (rest : List Frame) (hq : br.tx_queue = skb :: rest) :
    (vsock_tx_iter br sendRet).attemptedSend = some skb ∧
    (vsock_tx_iter br sendRet).freedSkb = true ∧
    (vsock_tx_iter br sendRet).act = LoopAct.cont ∧
    (vsock_tx_iter br sendRet).st.tx_queue = rest ∧
    (sendRet < 0 →
      (vsock_tx_iter br sendRet).loggedErr = true ∧
      (vsock_tx_iter br sendRet).st.stats = br.stats) ∧
    (0 ≤ sendRet →
      (vsock_tx_iter br sendRet).st.stats.tx_packets = br.stats.tx_packets + 1 ∧
      (vsock_tx_iter br sendRet).st.stats.tx_bytes = br.stats.tx_bytes + sendRet.toNat) := by
  simp only [vsock_tx_iter, hq]
  by_cases hs : sendRet < 0
  · rw [if_pos hs]
    exact ⟨rfl, rfl, rfl, rfl, fun _ => ⟨rfl, rfl⟩, fun hpos => absurd hs (by omega)⟩
  · rw [if_neg hs]
    exact ⟨rfl, rfl, rfl, rfl, fun hneg => absurd hneg hs, fun _ => ⟨rfl, rfl⟩⟩

/-- C5 witness: the amended statement applied to the bridge holding one
three-byte frame, with a successful three-byte send. -/
theorem tx_single_write_per_frame_witness :
    (vsock_tx_iter queuedBridge 3).attemptedSend = some [0, 1, 2] ∧
    (vsock_tx_iter queuedBridge 3).st.stats.tx_bytes = 3 := by
  have h := tx_single_write_per_frame queuedBridge 3 [0, 1, 2] [] rfl
  exact ⟨h.1, by rw [(h.2.2.2.2.2 (by decide)).2]; decide⟩

/-- C6: whenever any init step fails — an allocation fails, or one of the
fallible kernel calls returns a nonzero code (the kernel APIs return
non-positive codes, which the hypotheses record) — init runs the unwind
chain for all steps acquired so far: no resource remains held, the global
bridge pointer is NULL, and a negative error code is returned; the bridge
is never left partially initialized. -/
theorem init_failure_full_unwind (env : InitEnv)
    (hr : env.registerRet ≤ 0) (hs : env.sockCreateRet ≤ 0)
    (hc : env.connectRet ≤ 0) (hrx : env.rxThreadErr ≤ 0)
    (htx : env.txThreadErr ≤ 0)
    (hfail : (vsock_tap_bridge_init env).ret ≠ 0) :
    (vsock_tap_bridge_init env).ret < 0 ∧
    (vsock_tap_bridge_init env).res = noResources ∧
    (vsock_tap_bridge_init env).globalBridge = false := by
  obtain ⟨k, a, r, s, c, rx, tx⟩ := env
  simp only at hr hs hc hrx htx hfail
  cases k with
  | false =>
    refine ⟨?_, rfl, rfl⟩
    have h : (vsock_tap_bridge_init ⟨false, a, r, s, c, rx, tx⟩).ret = -ENOMEM := rfl
    rw [h]; norm_num [ENOMEM]
  | true =>
    cases a with
    | false =>
      refine ⟨?_, rfl, rfl⟩
      have h : (vsock_tap_bridge_init ⟨true, false, r, s, c, rx, tx⟩).ret = -ENOMEM := rfl
      rw [h]; norm_num [ENOMEM]
    | true =>
      by_cases h1 : r = 0
      case neg =>
        refine ⟨?_, ?_, ?_⟩ <;>
          simp [vsock_tap_bridge_init, h1, err_free_netdev, err_free_bridge,
            noResources] <;> omega
      case pos =>
        subst h1
        by_cases h2 : s = 0
        case neg =>
          refine ⟨?_, ?_, ?_⟩ <;>
            simp [vsock_tap_bridge_init, h2, err_unregister_netdev, err_free_netdev,
              err_free_bridge, noResources] <;> omega
        case pos =>
          subst h2
          by_cases h3 : c = 0
          case neg =>
            refine ⟨?_, ?_, ?_⟩ <;>
              simp [vsock_tap_bridge_init, h3, err_close_socket, err_unregister_netdev,
                err_free_netdev, err_free_bridge, noResources] <;> omega
          case pos =>
            subst h3
            by_cases h4 : rx = 0
            case neg =>
              refine ⟨?_, ?_, ?_⟩ <;>
                simp [vsock_tap_bridge_init, h4, err_close_socket, err_unregister_netdev,
                  err_free_netdev, err_free_bridge, noResources] <;> omega
            case pos =>
              subst h4
              by_cases h5 : tx = 0
              case neg =>
                refine ⟨?_, ?_, ?_⟩ <;>
                  simp [vsock_tap_bridge_init, h5, err_stop_rx, err_close_socket,
                    err_unregister_netdev, err_free_netdev, err_free_bridge,
                    noResources] <;> omega
              case pos =>
                subst h5
                exact absurd rfl hfail

/-- C6 witness: the theorem applied to the environment whose vsock connect
fails with -ECONNREFUSED. -/
theorem init_failure_full_unwind_witness :
    (vsock_tap_bridge_init connectFailEnv).res = noResources :=
  (init_failure_full_unwind connectFailEnv (by decide) (by decide) (by decide)
    (by decide) (by decide) (by decide)).2.1

/-- C7: counterexample. With the bridge present but not running, tap_xmit
frees (discards) the submitted frame yet hands back the bridge state —
and with it every statistics counter, the initially zero `tx_dropped`
included — completely unchanged: the frame is lost silently without any
drop counter increment. -/
theorem xmit_drop_without_counter :
    (tap_xmit (some stoppedBridge) [0]).freedSkb = true ∧
    (tap_xmit (some stoppedBridge) [0]).st = some stoppedBridge ∧
    stoppedBridge.stats.tx_dropped = 0 := by decide

/-- C7 (amended): whenever tap_xmit discards a frame rather than
forwarding it (which happens exactly when the global bridge is NULL or
not running) it leaves the bridge state — every counter included —
unchanged: the frame is dropped silently, no drop counter is
incremented. -/
theorem xmit_silent_drop (g : Option BridgeSt) (skb : Frame)
    (hfree : (tap_xmit g skb).freedSkb = true) :
    (tap_xmit g skb).st = g := by
  cases g with
  | none => rfl
  | some br =>
    by_cases hb : br.running = false
    · simp [tap_xmit, hb]
    · simp [tap_xmit, hb] at hfree

/-- C7 witness: the amended statement applied to the stopped bridge. -/
theorem xmit_silent_drop_witness :
    (tap_xmit (some stoppedBridge) [7]).st = some stoppedBridge :=
  xmit_silent_drop (some stoppedBridge) [7] (by decide)

/-- C8: invoking exit with the global bridge already NULL performs no
kernel call at all — empty trace, so nothing is freed twice and no error
occurs — and running exit after any exit is exactly this no-op, because
exit always leaves the global pointer NULL. -/
theorem exit_idempotent :
    vsock_tap_bridge_exit none = (none, []) ∧
    (∀ g : Option ExitBridge,
      vsock_tap_bridge_exit (vsock_tap_bridge_exit g).1 = (none, [])) := by
  refine ⟨rfl, ?_⟩
  intro g
  cases g <;> rfl

/-- C9: tap_xmit returns NETDEV_TX_OK on every input; when the global
bridge is NULL it frees the frame and wakes nobody; when the bridge is
present but not running it frees the frame and leaves the state
unchanged; when the bridge is running it does not free the frame but only
appends it to the TX queue and wakes the TX thread. -/
theorem xmit_always_tx_ok (g : Option BridgeSt) (skb : Frame) :
    (tap_xmit g skb).ret = NetdevTx.TX_OK ∧
    (g = none → (tap_xmit g skb).freedSkb = true ∧ (tap_xmit g skb).wokeTx = false) ∧
    (∀ br : BridgeSt, g = some br → br.running = false →
      (tap_xmit g skb).freedSkb = true ∧ (tap_xmit g skb).st = some br ∧
      (tap_xmit g skb).wokeTx = false) ∧
    (∀ br : BridgeSt, g = some br → br.running = true →
      (tap_xmit g skb).freedSkb = false ∧ (tap_xmit g skb).wokeTx = true ∧
      (tap_xmit g skb).st = some { br with tx_queue := br.tx_queue ++ [skb] }) := by
  cases g with
  | none =>
    exact ⟨rfl, fun _ => ⟨rfl, rfl⟩, fun br h => Option.noConfusion h,
      fun br h => Option.noConfusion h⟩
  | some b =>
    refine ⟨?_, fun h => Option.noConfusion h, ?_, ?_⟩
    · by_cases hb : b.running = false <;> simp [tap_xmit, hb]
    · intro br h hb
      obtain rfl : b = br := Option.some.injEq .. ▸ h ▸ rfl
      simp [tap_xmit, hb]
    · intro br h hb
      obtain rfl : b = br := Option.some.injEq .. ▸ h ▸ rfl
      simp [tap_xmit, hb]

/-- C9 witness: the theorem applied to the steady bridge with a two-byte
frame. -/
theorem xmit_always_tx_ok_witness :
    (tap_xmit (some steadyBridge) [1, 2]).ret = NetdevTx.TX_OK ∧
    (tap_xmit (some steadyBridge) [1, 2]).wokeTx = true :=
  ⟨(xmit_always_tx_ok (some steadyBridge) [1, 2]).1,
   ((xmit_always_tx_ok (some steadyBridge) [1, 2]).2.2.2 steadyBridge rfl rfl).2.1⟩

/-- C10: when the transport read succeeded (positive length) but the skb
allocation fails, the RX iteration logs the failure, injects nothing into
the stack, leaves the bridge state — RX statistics included — unchanged,
and continues with the next loop iteration instead of exiting. -/
theorem rx_alloc_failure_nonfatal (br : BridgeSt) (len : Int) (buffer : Frame)
    (hpos : 0 < len) :
    (vsock_rx_iter br len buffer false).act = LoopAct.cont ∧
    (vsock_rx_iter br len buffer false).injected = none ∧
    (vsock_rx_iter br len buffer false).st = br ∧
    (vsock_rx_iter br len buffer false).loggedErr = true := by
  unfold vsock_rx_iter
  rw [if_neg (by omega)]
  exact ⟨rfl, rfl, rfl, rfl⟩

/-- C10 witness: the theorem applied at a five-byte read on the steady
bridge. -/
theorem rx_alloc_failure_nonfatal_witness :
    (vsock_rx_iter steadyBridge 5 [9, 9, 9, 9, 9] false).st = steadyBridge :=
  (rx_alloc_failure_nonfatal steadyBridge 5 [9, 9, 9, 9, 9] (by decide)).2.2.1

end VsockTapBridge
